import Mathlib

/-!
Shallow embedding of `src/js/template.js`: the single function `menu(index,
relativePath)`, which writes an HTML navigation list via `document.write`.
JavaScript numbers are modelled as rationals (the indices involved are small
integers, exactly representable); `document.write` is modelled as appending a
fragment to the document, so a run of `menu` is a function from the document
(a list of already-written fragments) to the extended document.
-/

namespace Template

/-- A JavaScript value as far as `menu` can observe one: a number (modelled as
a rational), a string, a boolean, `undefined`, or `null`. -/
inductive JSValue where
  | num (q : ℚ)
  | str (s : String)
  | bool (b : Bool)
  | undef
  | null
deriving DecidableEq

/-- Character class used by JavaScript string trimming (ASCII fragment). -/
def isWs (c : Char) : Bool :=
  c = ' ' || c = '\t' || c = '\n' || c = '\r'

/-- Numeric value of a list of decimal digit characters. -/
def digitsToNat (l : List Char) : ℕ :=
  l.foldl (fun a c => 10 * a + (c.toNat - 48)) 0

/-- JavaScript `ToNumber` on strings, restricted to the decimal-literal
fragment (whitespace trimming, empty string to `0`, optional sign, decimal
digits with an optional fractional part); `none` stands for `NaN`, which is
what every other string yields as far as comparison with the loop counter
`0..7` can observe. -/
def strToNumber (s : String) : Option ℚ :=
  let l := ((s.data.dropWhile isWs).reverse.dropWhile isWs).reverse
  if l = [] then some 0
  else
    let sgn : ℤ := match l with
      | '-' :: _ => -1
      | _ => 1
    let l2 : List Char := match l with
      | '-' :: r => r
      | '+' :: r => r
      | _ => l
    let ip := l2.takeWhile Char.isDigit
    let rest := l2.dropWhile Char.isDigit
    match rest with
    | [] => if ip = [] then none else some (mkRat (sgn * (digitsToNat ip : ℤ)) 1)
    | '.' :: fr =>
        let fd := fr.takeWhile Char.isDigit
        if fr.dropWhile Char.isDigit ≠ [] then none
        else if ip = [] ∧ fd = [] then none
        else
          some (mkRat (sgn * ((digitsToNat ip : ℤ) * 10 ^ fd.length + (digitsToNat fd : ℤ)))
            (10 ^ fd.length))
    | _ => none

/-- JavaScript loose equality `v == n` where `n` is a number (the loop counter
`i` of `menu`): numbers compare numerically, strings are coerced with
`ToNumber` (`NaN` compares unequal), booleans coerce to `0`/`1`, and
`undefined`/`null` are never loosely equal to a number. -/
def looseEqNum (v : JSValue) (n : ℚ) : Bool :=
  match v with
  | .num q => q = n
  | .str s =>
      match strToNumber s with
      | some q => q = n
      | none => false
  | .bool b => (if b then (1 : ℚ) else 0) = n
  | .undef => false
  | .null => false

/-- The constant table of page files (`var pages = [...]` in the source). -/
def pages : List String :=
  ["index.html", "publications.html", "bibbase.html", "students.html",
   "projects.html", "teaching.html", "service.html", "awards.html"]

/-- The constant table of display titles (`var titles = [...]` in the source). -/
def titles : List String :=
  ["Home", "Publications", "BibBase", "Students", "Projects", "Teaching",
   "Service", "Awards"]

/-- The opening of a list item: the active branch (line 11 of the source) or
the plain branch (line 14), up to and including `href="`. -/
def liOpen (active : Bool) : String :=
  if active then "\t\t\t\t<li class=\"active\"><a class=\"active\" href=\""
  else "\t\t\t\t<li><a href=\""

/-- One full list item as written by the loop body: opening, then
`relativePath + pages[i]` as the link target, then `">`, the title, and the
closing tags. -/
def li (active : Bool) (relativePath page title : String) : String :=
  liOpen active ++ relativePath ++ page ++ "\">" ++ title ++ "</a></li>"

/-- The fragment written at loop iteration `i`: the branch is selected by
`index == i` (loose equality). -/
def menuItem (index : JSValue) (relativePath : String) (i : ℕ) : String :=
  li (looseEqNum index i) relativePath (pages.getD i "") (titles.getD i "")

/-- One `document.write(s)` call: appends the fragment to the document. -/
def write (doc : List String) (s : String) : List String :=
  doc ++ [s]

/-- The `menu` function of `src/js/template.js` as a document transformer:
defaults `relativePath` to the empty string when it is omitted (`undefined`),
writes the `<ul>` opener, one `<li>` per table row in table order (the
`for (var i=0; i<pages.length; i++)` loop), and the `</ul>` closer. -/
def menuRun (index : JSValue) (relativePath : Option String)
    (doc : List String) : List String :=
  let rp := match relativePath with
    | some s => s
    | none => ""
  let doc := write doc "            <ul>"
  let doc := (List.range pages.length).foldl (fun d i => write d (menuItem index rp i)) doc
  write doc "\t\t\t</ul>"

/-- The sequence of fragments a call to `menu` emits (its effect on an empty
document). -/
def menu (index : JSValue) (relativePath : Option String) : List String :=
  menuRun index relativePath []

/-- A fragment is marked active when it starts with the active list-item
opening `<li class="active"` (checked on the first nine characters, which
already separate the two branches). -/
def isActive (s : String) : Bool :=
  decide (s.data.take 9 = ("\t\t\t\t<li c").data)

/-- The part of a list-item opening that precedes the `href="` attribute;
`liOpen active = liTag active ++ "href=\""`. -/
def liTag (active : Bool) : String :=
  if active then "\t\t\t\t<li class=\"active\"><a class=\"active\" "
  else "\t\t\t\t<li><a "

end Template

/-!
Helper lemmas: the shape of a `menu` run, item access, and active-item
counting, all uniform in the inputs.
-/
namespace Template

theorem strToNumber_three : strToNumber "3" = some 3 := rfl

theorem foldl_write (f : ℕ → String) (l : List ℕ) (doc : List String) :
    l.foldl (fun d i => write d (f i)) doc = doc ++ l.map f := by
  induction l generalizing doc with
  | nil => simp
  | cons a l ih =>
    rw [List.foldl_cons, ih]
    simp [write]

theorem menuRun_eq (index : JSValue) (relativePath : Option String) (doc : List String) :
    menuRun index relativePath doc = doc ++ menuRun index relativePath [] := by
  cases relativePath <;>
  · simp only [menuRun]
    rw [foldl_write, foldl_write]
    simp [write]

theorem menu_eq (index : JSValue) (relativePath : Option String) :
    menu index relativePath =
      "            <ul>" ::
        ((List.range 8).map (menuItem index (relativePath.getD "")) ++ ["\t\t\t</ul>"]) := by
  cases relativePath <;>
  · simp only [menu, menuRun, Option.getD]
    rw [foldl_write]
    simp [write, pages]

theorem isActive_li (b : Bool) (rp p t : String) : isActive (li b rp p t) = b := by
  cases b <;> simp [isActive, li, liOpen, String.data_append]

end Template
namespace Template

theorem menu_getElem (index : JSValue) (relativePath : Option String) (i : ℕ) (h : i < 8) :
    (menu index relativePath)[i + 1]? =
      some (li (looseEqNum index i) (relativePath.getD "") (pages.getD i "") (titles.getD i "")) := by
  rw [menu_eq]
  rw [List.getElem?_cons_succ]
  rw [List.getElem?_append]
  simp [h, List.getElem?_range, menuItem]

theorem countP_isActive_menu (index : JSValue) (relativePath : Option String) :
    (menu index relativePath).countP isActive =
      ((List.range 8).filter (fun (i : ℕ) => looseEqNum index (i : ℚ))).length := by
  rw [menu_eq, List.countP_cons, List.countP_append, List.countP_map]
  have h3 : (List.range 8).countP (isActive ∘ menuItem index (relativePath.getD "")) =
      (List.range 8).countP (fun (i : ℕ) => looseEqNum index (i : ℚ)) :=
    List.countP_congr (fun i _ => by simp [Function.comp, menuItem, isActive_li])
  rw [h3, List.countP_eq_length_filter]
  have h1 : isActive "            <ul>" = false := by decide
  have h2 : List.countP isActive ["\t\t\t</ul>"] = 0 := by decide
  rw [h2]
  simp [h1]

theorem menu_length (index : JSValue) (relativePath : Option String) :
    (menu index relativePath).length = 10 := by
  rw [menu_eq]
  simp

end Template
namespace Template

theorem li_length (b : Bool) (rp p t : String) :
    (li b rp p t).length = (if b then 47 else 17) + (rp.length + p.length + t.length) + 11 := by
  have e1 : ("\t\t\t\t<li class=\"active\"><a class=\"active\" href=\"" : String).length = 47 := by
    decide
  have e2 : ("\t\t\t\t<li><a href=\"" : String).length = 17 := by decide
  have e3 : ("\">" : String).length = 2 := by decide
  have e4 : ("</a></li>" : String).length = 9 := by decide
  cases b <;> simp [li, liOpen, String.length_append, e1, e2, e3, e4] <;> omega

theorem li_ne_ulOpen (b : Bool) (rp p t : String) : li b rp p t ≠ "            <ul>" := by
  intro hEq
  have h := congrArg String.length hEq
  rw [li_length] at h
  have e : ("            <ul>" : String).length = 16 := by decide
  rw [e] at h
  cases b <;> simp at h <;> omega

theorem li_ne_ulClose (b : Bool) (rp p t : String) : li b rp p t ≠ "\t\t\t</ul>" := by
  intro hEq
  have h := congrArg String.length hEq
  rw [li_length] at h
  have e : ("\t\t\t</ul>" : String).length = 8 := by decide
  rw [e] at h
  cases b <;> simp at h

theorem menuItem_not_mem (index : JSValue) (rp : String) (s : String)
    (hs : ∀ b p t, li b rp p t ≠ s) :
    s ∉ (List.range 8).map (menuItem index rp) := by
  intro hmem
  rcases List.mem_map.mp hmem with ⟨i, _, hEq⟩
  exact hs _ _ _ hEq

theorem menu_count_ulOpen (index : JSValue) (relativePath : Option String) :
    (menu index relativePath).count "            <ul>" = 1 := by
  rw [menu_eq, List.count_cons]
  rw [List.count_append]
  have h0 : (List.map (menuItem index (relativePath.getD "")) (List.range 8)).count
      "            <ul>" = 0 :=
    List.count_eq_zero.mpr (menuItem_not_mem _ _ _ (fun b p t => li_ne_ulOpen b _ p t))
  rw [h0]
  decide

end Template
namespace Template

theorem menu_count_ulClose (index : JSValue) (relativePath : Option String) :
    (menu index relativePath).count "\t\t\t</ul>" = 1 := by
  rw [menu_eq, List.count_cons]
  rw [List.count_append]
  have h0 : (List.map (menuItem index (relativePath.getD "")) (List.range 8)).count
      "\t\t\t</ul>" = 0 :=
    List.count_eq_zero.mpr (menuItem_not_mem _ _ _ (fun b p t => li_ne_ulClose b _ p t))
  rw [h0]
  decide

theorem menu_head (index : JSValue) (relativePath : Option String) :
    (menu index relativePath).head? = some "            <ul>" := by
  rw [menu_eq]
  rfl

theorem menu_getLast (index : JSValue) (relativePath : Option String) :
    (menu index relativePath).getLast? = some "\t\t\t</ul>" := by
  rw [menu_eq]
  rw [show "            <ul>" ::
        (List.map (menuItem index (relativePath.getD "")) (List.range 8) ++ ["\t\t\t</ul>"]) =
      ("            <ul>" :: List.map (menuItem index (relativePath.getD "")) (List.range 8))
        ++ ["\t\t\t</ul>"] from rfl]
  exact List.getLast?_concat _

theorem menu_congr (a b : JSValue) (h : ∀ n : ℚ, looseEqNum a n = looseEqNum b n)
    (relativePath : Option String) : menu a relativePath = menu b relativePath := by
  rw [menu_eq, menu_eq]
  have hItem : menuItem a (relativePath.getD "") = menuItem b (relativePath.getD "") :=
    funext fun i => by simp [menuItem, h]
  rw [hItem]

theorem looseEq_str3 (n : ℚ) : looseEqNum (.str "3") n = looseEqNum (.num 3) n := by
  simp [looseEqNum, strToNumber_three]

theorem looseEq_true (n : ℚ) : looseEqNum (.bool true) n = looseEqNum (.num 1) n := by
  simp [looseEqNum]

end Template

/-!
Claim theorems.
-/
namespace Template

theorem liOpen_eq_liTag (b : Bool) : liOpen b = liTag b ++ "href=\"" := by
  cases b <;> decide

theorem li_decompose (b : Bool) (rp p t : String) :
    li b rp p t = liTag b ++ ("href=\"" ++ rp ++ p) ++ ("\">" ++ (t ++ "</a></li>")) := by
  simp [li, liOpen_eq_liTag, String.append_assoc]

end Template
namespace Template

/-- C1: for every integer selectedIndex between 0 and 7, the output of
`menu(selectedIndex, relativePath)` contains exactly one list item marked
active, and it is the item at position selectedIndex; in particular for
selectedIndex = 0 the first item is Home with link target index.html. -/
theorem menu_unique_active (k : Fin 8) (relativePath : Option String) :
    (menu (.num (k : ℕ)) relativePath).countP isActive = 1
    ∧ (∃ s, (menu (.num (k : ℕ)) relativePath)[(k : ℕ) + 1]? = some s ∧ isActive s = true)
    ∧ (menu (.num 0) none)[1]? = some (li true "" "index.html" "Home") := by
  refine ⟨?_, ?_, by decide⟩
  · rw [countP_isActive_menu]
    fin_cases k <;> decide
  · refine ⟨_, menu_getElem _ _ (k : ℕ) k.isLt, ?_⟩
    rw [isActive_li]
    simp [looseEqNum]

/-- C2 counterexample: the non-numeric index "3" (a string) does mark an entry
active, because the position comparison in the source is loose (==), not
strict; so it is false that every out-of-range or non-numeric index yields
zero active entries. -/
theorem menu_str_counterexample :
    ¬ ((menu (.str "3") none).countP isActive = 0) := by
  rw [countP_isActive_menu]
  decide

/-- C2 (amended): for any index that is undefined, null, or a number different
from every integer 0..7 (negative, non-integer, or out of range), menu renders
all eight list items (ten fragments in total) and marks zero entries active;
non-numeric indices are not covered in general, because the position
comparison is loose (==), so e.g. the string "3" still matches position 3. -/
theorem menu_no_active_out_of_range (index : JSValue) (relativePath : Option String)
    (h : index = .undef ∨ index = .null ∨
      ∃ q : ℚ, index = .num q ∧ ∀ i : ℕ, i < 8 → q ≠ (i : ℚ)) :
    (menu index relativePath).countP isActive = 0
    ∧ (menu index relativePath).length = 10 := by
  refine ⟨?_, menu_length _ _⟩
  rw [countP_isActive_menu]
  rw [List.length_eq_zero, List.filter_eq_nil_iff]
  intro i hi
  rcases h with h | h | ⟨q, hq, hne⟩
  · subst h; simp [looseEqNum]
  · subst h; simp [looseEqNum]
  · subst hq
    have hne2 : q ≠ (i : ℚ) := hne i (List.mem_range.mp hi)
    simp [looseEqNum, hne2]

theorem menu_no_active_out_of_range_witness :
    (menu (.num 99) none).countP isActive = 0 ∧ (menu (.num 99) none).length = 10 :=
  menu_no_active_out_of_range (.num 99) none (Or.inr (Or.inr ⟨99, rfl, by decide⟩))

end Template
namespace Template

/-- C3: for every pair of inputs, the list item at position i shows the page
file and title of table row i, so the rendered order is exactly the fixed
table order — Home, Publications, BibBase, Students, Projects, Teaching,
Service, Awards — independent of both inputs. -/
theorem menu_fixed_order (index : JSValue) (relativePath : Option String) (i : Fin 8) :
    (∃ b : Bool, (menu index relativePath)[(i : ℕ) + 1]? =
      some (li b (relativePath.getD "") (pages.getD i "") (titles.getD i "")))
    ∧ titles = ["Home", "Publications", "BibBase", "Students", "Projects", "Teaching",
        "Service", "Awards"] :=
  ⟨⟨_, menu_getElem index relativePath i i.isLt⟩, rfl⟩

/-- C4: the link target of the item at position i is the concatenation
relativePath ++ pages[i]; an omitted relativePath behaves as the empty string,
so the target is the bare page file; scenario: menu(3, "/docs/") renders the
fourth item (Students) active with target /docs/students.html, and it is the
only active item. -/
theorem menu_link_target (index : JSValue) (rp : String) (i : Fin 8) :
    (∃ pre post, (menu index (some rp))[(i : ℕ) + 1]? =
        some (pre ++ ("href=\"" ++ rp ++ pages.getD i "") ++ post))
    ∧ menu index none = menu index (some "")
    ∧ (menu (.num 3) (some "/docs/"))[4]? = some (li true "/docs/" "students.html" "Students")
    ∧ (menu (.num 3) (some "/docs/")).countP isActive = 1 := by
  refine ⟨?_, rfl, by decide, ?_⟩
  · refine ⟨liTag (looseEqNum index (i : ℕ)),
      "\">" ++ (titles.getD i "" ++ "</a></li>"), ?_⟩
    rw [menu_getElem index (some rp) (i : ℕ) i.isLt]
    rw [li_decompose]
    simp [String.append_assoc]
  · rw [countP_isActive_menu]
    decide

/-- C5: every emitted fragment sequence starts with the single list-container
opener and ends with the single closer, each of which occurs exactly once per
call. -/
theorem menu_wrapped (index : JSValue) (relativePath : Option String) :
    (menu index relativePath).head? = some "            <ul>"
    ∧ (menu index relativePath).getLast? = some "\t\t\t</ul>"
    ∧ (menu index relativePath).count "            <ul>" = 1
    ∧ (menu index relativePath).count "\t\t\t</ul>" = 1 :=
  ⟨menu_head _ _, menu_getLast _ _, menu_count_ulOpen _ _, menu_count_ulClose _ _⟩

/-- C6: the two constant tables have the same length, 8, and a fixed pairing
by position; being top-level constants of a pure model, no call can add,
remove, reorder, or mutate an entry. -/
theorem pages_titles_tables :
    pages.length = titles.length
    ∧ pages.length = 8
    ∧ pages.zip titles =
      [("index.html", "Home"), ("publications.html", "Publications"),
       ("bibbase.html", "BibBase"), ("students.html", "Students"),
       ("projects.html", "Projects"), ("teaching.html", "Teaching"),
       ("service.html", "Service"), ("awards.html", "Awards")] := by
  refine ⟨rfl, rfl, rfl⟩

/-- C7: a run of menu writes exactly the fragments determined by its two
inputs after whatever the document already contains: the emitted suffix is
the same for any two documents, so equal inputs always produce byte-for-byte
identical fragment sequences, independent of any other state. -/
theorem menu_deterministic (index : JSValue) (relativePath : Option String)
    (doc doc' : List String) :
    menuRun index relativePath doc = doc ++ menu index relativePath
    ∧ (menuRun index relativePath doc).drop doc.length
        = (menuRun index relativePath doc').drop doc'.length := by
  have h1 := menuRun_eq index relativePath doc
  have h2 := menuRun_eq index relativePath doc'
  refine ⟨h1, ?_⟩
  rw [show menuRun index relativePath doc = doc ++ menu index relativePath from h1,
      show menuRun index relativePath doc' = doc' ++ menu index relativePath from h2]
  rw [List.drop_left, List.drop_left]

/-- C8: because the comparison is loose equality, the string "3" and the
boolean true mark entries active exactly as the numbers 3 and 1 would: the
whole output coincides with the corresponding integer call, and the matched
item (position 3 resp. 1) is active. -/
theorem menu_loose_coercion (relativePath : Option String) :
    menu (.str "3") relativePath = menu (.num 3) relativePath
    ∧ menu (.bool true) relativePath = menu (.num 1) relativePath
    ∧ (∃ s, (menu (.str "3") relativePath)[4]? = some s ∧ isActive s = true)
    ∧ (∃ s, (menu (.bool true) relativePath)[2]? = some s ∧ isActive s = true) := by
  refine ⟨menu_congr _ _ looseEq_str3 _, menu_congr _ _ looseEq_true _, ?_, ?_⟩
  · refine ⟨_, by simpa using menu_getElem (.str "3") relativePath 3 (by norm_num), ?_⟩
    rw [isActive_li]
    decide
  · refine ⟨_, by simpa using menu_getElem (.bool true) relativePath 1 (by norm_num), ?_⟩
    rw [isActive_li]
    decide

/-- C9: every call emits exactly ten fragments — the container opener, eight
list items (one per table row), and the container closer — whatever the
inputs are. -/
theorem menu_fragment_count (index : JSValue) (relativePath : Option String) :
    (menu index relativePath).length = 10
    ∧ menu index relativePath =
        "            <ul>" ::
          ((List.range 8).map (menuItem index (relativePath.getD "")) ++ ["\t\t\t</ul>"])
    ∧ ((List.range 8).map (menuItem index (relativePath.getD ""))).length = 8 :=
  ⟨menu_length _ _, menu_eq _ _, by simp⟩

/-- C10: relativePath is embedded verbatim, with no escaping or
transformation, immediately after href=" and immediately before the row's
page file, for every string relativePath including ones containing quotes or
markup. -/
theorem menu_relativePath_verbatim (index : JSValue) (rp : String) (i : Fin 8) :
    ∃ pre post, (menu index (some rp))[(i : ℕ) + 1]? =
      some (pre ++ "href=\"" ++ rp ++ (pages.getD i "" ++ post)) := by
  refine ⟨liTag (looseEqNum index (i : ℕ)), "\">" ++ (titles.getD i "" ++ "</a></li>"), ?_⟩
  rw [menu_getElem index (some rp) (i : ℕ) i.isLt]
  rw [li_decompose]
  simp [String.append_assoc]

end Template
